import Mathlib

/-!
Shallow embedding of the data-access layer in `src/db/index.js`
(fake-store-server).

The layer owns a single SQLite database with three tables (`users`,
`orders`, `cart`) and exposes repository operations that wrap synchronous
prepared-statement calls (`dbRun`, `dbAll`, `dbGet`) in promises. We model
the database as an explicit state value and each statement as a function
on that state. A thrown storage exception is modelled with `Except`; an
externally injected failure (disk error, missing table, ...) is driven by
an explicit fault schedule threaded through the store state: each storage
call consumes one schedule slot, and a `some msg` slot makes that call
throw `msg` instead of executing. JavaScript numbers are embedded as
rationals (the claims under study only involve arithmetic that is exact
in doubles); `Math.round` becomes `jsRound` below. The JSON blob columns
(`order_items`, `cart_items`) are modelled by storing the decoded value
itself: `JSON.stringify` is injective on the values this layer produces
and `JSON.parse` inverts it, so the stringify/parse pair is embedded as
the identity on a typed value.
-/

set_option autoImplicit false

/-- JSON values, used for the opaque cart-item blobs: the layer stores
`JSON.stringify(items)` and later returns `JSON.parse(cart_items)`
verbatim, so the item structure is opaque to it. -/
inductive Json where
  | null
  | bool (b : Bool)
  | num (q : ℚ)
  | str (s : String)
  | arr (elems : List Json)
  | obj (fields : List (String × Json))

/-- One order line item: the code reads exactly the `price` and `quantity`
fields of each submitted item (`itm.price`, `itm.quantity`), both
JavaScript numbers, embedded as rationals. -/
structure LineItem where
  price : ℚ
  quantity : ℚ
  deriving DecidableEq, Repr

/-- Row of the `users` table:
`id INTEGER PRIMARY KEY AUTOINCREMENT, name TEXT, email TEXT UNIQUE, password TEXT`. -/
structure UserRow where
  id : ℕ
  name : String
  email : String
  password : String
  deriving DecidableEq, Repr

/-- Row of the `orders` table:
`id INTEGER PRIMARY KEY AUTOINCREMENT, uid, item_numbers, is_paid CHECK in (0,1),
is_delivered CHECK in (0,1), total_price, order_items TEXT`. The
`order_items` column holds `JSON.stringify(items)`, modelled as the item
list itself. -/
structure OrderRow where
  id : ℕ
  uid : ℕ
  item_numbers : ℚ
  is_paid : ℤ
  is_delivered : ℤ
  total_price : ℤ
  order_items : List LineItem
  deriving DecidableEq, Repr

/-- Row of the `cart` table: `uid INTEGER UNIQUE, cart_items TEXT`, the
blob modelled as the decoded JSON array. -/
structure CartRow where
  uid : ℕ
  cart_items : List Json

/-- Whole database state. `nextUserId` / `nextOrderId` model the
AUTOINCREMENT counters, `nextCartRowId` the implicit rowid counter of
`cart`, and `lastInsertId` the connection-wide `lastInsertRowid` that
better-sqlite3 reports in `info` for every `run` call. -/
structure DB where
  users : List UserRow
  nextUserId : ℕ
  orders : List OrderRow
  nextOrderId : ℕ
  cart : List CartRow
  nextCartRowId : ℕ
  lastInsertId : ℕ

/-- The empty freshly-initialised database (tables created, no rows). -/
def DB.empty : DB :=
  ⟨[], 1, [], 1, [], 1, 0⟩

/-- Result of `stmt.run` as surfaced by `dbRun`: `{ lastID, changes }`. -/
structure RunInfo where
  lastID : ℕ
  changes : ℕ
  deriving DecidableEq, Repr

/-- Store state threaded through each repository call: the database plus
the fault schedule for the remaining storage calls. -/
structure FStore where
  db : DB
  faults : List (Option String)

/-- Uniform result envelope of every repository operation:
`{status: "OK", ...data}` or `{status: "error", message}`. -/
inductive Envelope (α : Type) where
  | ok (data : α)
  | error (message : String)
  deriving DecidableEq

/-- Pop the fault-schedule slot for the next storage call; an exhausted
schedule means the call succeeds. -/
def popFault (s : FStore) : Option String × FStore :=
  match s.faults with
  | [] => (none, s)
  | f :: rest => (f, { s with faults := rest })

/-- Run one storage call: consume a fault slot (throwing the injected
message if one is scheduled), otherwise execute the statement's semantics
`act`, which may itself throw (constraint violation). -/
def runPrim {α : Type} (act : DB → Except String (α × DB)) (s : FStore) :
    Except String α × FStore :=
  match popFault s with
  | (some m, s1) => (Except.error m, s1)
  | (none, s1) =>
    match act s1.db with
    | Except.error m => (Except.error m, s1)
    | Except.ok (a, db1) => (Except.ok a, { s1 with db := db1 })

/-- Statement `SELECT * FROM users WHERE email = $email` run through
`dbGet` (first matching row or absent). -/
def selectUserByEmail (email : String) (db : DB) :
    Except String (Option UserRow × DB) :=
  Except.ok (db.users.find? (fun u => u.email == email), db)

/-- Statement `INSERT INTO users (name,email,password) VALUES (?,?,?)`:
the UNIQUE constraint on `email` makes the insert throw when the email is
already present; otherwise the row is appended with the next
autoincrement id. -/
def insertUser (name email password : String) (db : DB) :
    Except String (RunInfo × DB) :=
  if db.users.any (fun u => u.email == email) then
    Except.error "UNIQUE constraint failed: users.email"
  else
    Except.ok (⟨db.nextUserId, 1⟩,
      { db with
          users := db.users ++ [⟨db.nextUserId, name, email, password⟩],
          nextUserId := db.nextUserId + 1,
          lastInsertId := db.nextUserId })

/-- Statement `SELECT * FROM users WHERE email=$email AND password=$password`
run through `dbGet`. -/
def selectUserByEmailPassword (email password : String) (db : DB) :
    Except String (Option UserRow × DB) :=
  Except.ok
    (db.users.find? (fun u => u.email == email && u.password == password), db)

/-- Statement `UPDATE users SET name=$name, password=$password WHERE id=$id`:
unconditional update by id, `changes` counts the matched rows. -/
def updateUserById (uid : ℕ) (name password : String) (db : DB) :
    Except String (RunInfo × DB) :=
  Except.ok (⟨db.lastInsertId, (db.users.filter (fun u => u.id == uid)).length⟩,
    { db with
        users := db.users.map (fun u =>
          if u.id == uid then { u with name := name, password := password } else u) })

/-- Statement `DELETE FROM users WHERE email=$email`. -/
def deleteUserByEmail (email : String) (db : DB) :
    Except String (RunInfo × DB) :=
  Except.ok (⟨db.lastInsertId, (db.users.filter (fun u => u.email == email)).length⟩,
    { db with users := db.users.filter (fun u => u.email != email) })

/-- Statement `SELECT * FROM users` run through `dbAll`. -/
def selectAllUsers (db : DB) : Except String (List UserRow × DB) :=
  Except.ok (db.users, db)

/-- Statement `SELECT * FROM orders` run through `dbAll`. -/
def selectAllOrders (db : DB) : Except String (List OrderRow × DB) :=
  Except.ok (db.orders, db)

/-- Statement `SELECT * FROM orders WHERE uid = $uid` run through `dbAll`. -/
def selectOrdersByUid (uid : ℕ) (db : DB) :
    Except String (List OrderRow × DB) :=
  Except.ok (db.orders.filter (fun o => o.uid == uid), db)

/-- Statement
`INSERT INTO orders (uid,item_numbers,total_price,order_items,is_paid,is_delivered) VALUES (?,?,?,?,?,?)`:
the CHECK constraints require both flags in {0,1}. -/
def insertOrder (uid : ℕ) (itemNumbers : ℚ) (totalPrice : ℤ)
    (items : List LineItem) (isPaid isDelivered : ℤ) (db : DB) :
    Except String (RunInfo × DB) :=
  if (isPaid == 0 || isPaid == 1) && (isDelivered == 0 || isDelivered == 1) then
    Except.ok (⟨db.nextOrderId, 1⟩,
      { db with
          orders := db.orders ++
            [⟨db.nextOrderId, uid, itemNumbers, isPaid, isDelivered, totalPrice, items⟩],
          nextOrderId := db.nextOrderId + 1,
          lastInsertId := db.nextOrderId })
  else Except.error "CHECK constraint failed: orders"

/-- Statement `UPDATE orders SET is_paid=$isPaid, is_delivered=$isDelivered WHERE id=$orderID`:
writes both flag columns on every matched row; the CHECK constraints throw
when a matched row would receive a flag outside {0,1}. -/
def updateOrderById (oid : ℕ) (isPaid isDelivered : ℤ) (db : DB) :
    Except String (RunInfo × DB) :=
  if db.orders.any (fun o => o.id == oid) &&
      !((isPaid == 0 || isPaid == 1) && (isDelivered == 0 || isDelivered == 1)) then
    Except.error "CHECK constraint failed: orders"
  else
    Except.ok (⟨db.lastInsertId, (db.orders.filter (fun o => o.id == oid)).length⟩,
      { db with
          orders := db.orders.map (fun o =>
            if o.id == oid then { o with is_paid := isPaid, is_delivered := isDelivered }
            else o) })

/-- Statement
`INSERT INTO cart (uid, cart_items) VALUES ($uid, $itemstr) ON CONFLICT (uid) DO UPDATE SET cart_items=excluded.cart_items`:
a fresh uid inserts a row, a conflicting uid replaces that row's
`cart_items` wholesale. -/
def upsertCart (uid : ℕ) (items : List Json) (db : DB) :
    Except String (RunInfo × DB) :=
  if db.cart.any (fun c => c.uid == uid) then
    Except.ok (⟨db.lastInsertId, 1⟩,
      { db with
          cart := db.cart.map (fun c =>
            if c.uid == uid then { c with cart_items := items } else c) })
  else
    Except.ok (⟨db.nextCartRowId, 1⟩,
      { db with
          cart := db.cart ++ [⟨uid, items⟩],
          nextCartRowId := db.nextCartRowId + 1,
          lastInsertId := db.nextCartRowId })

/-- Statement `SELECT * FROM cart WHERE uid=$uid` run through `dbGet`. -/
def selectCartByUid (uid : ℕ) (db : DB) :
    Except String (Option CartRow × DB) :=
  Except.ok (db.cart.find? (fun c => c.uid == uid), db)

/-- Payload of the OK envelopes of `createUser` and `checkUser`:
`{ id, name, email }`. -/
structure UserInfo where
  id : ℕ
  name : String
  email : String
  deriving DecidableEq, Repr

/-- Payload of the OK envelope of `updateUser`: `{ message, name }`. -/
structure UpdatedUser where
  message : String
  name : String
  deriving DecidableEq, Repr

/-- Repository operation `checkEmailTaken(email)`: fetch-one on email;
a present row yields the conflict envelope, an absent row yields OK, and
a thrown storage error is caught and returned as an error envelope
carrying the exception's own message (`e.message`). -/
def checkEmailTaken (email : String) (s : FStore) : Envelope Unit × FStore :=
  match runPrim (selectUserByEmail email) s with
  | (Except.ok (some _), s1) => (Envelope.error "The email is already used.", s1)
  | (Except.ok none, s1) => (Envelope.ok (), s1)
  | (Except.error m, s1) => (Envelope.error m, s1)

/-- Repository operation `createUser({name,email,password})`: first runs
`checkEmailTaken`; any error envelope from the check (conflict or caught
storage failure) is returned unchanged without inserting. Otherwise the
insert runs, OK carries `{id, name, email}`, and a thrown insert error is
caught as `Failed to insert user!`. -/
def createUser (name email password : String) (s : FStore) :
    Envelope UserInfo × FStore :=
  match checkEmailTaken email s with
  | (Envelope.error m, s1) => (Envelope.error m, s1)
  | (Envelope.ok _, s1) =>
    match runPrim (insertUser name email password) s1 with
    | (Except.ok info, s2) => (Envelope.ok ⟨info.lastID, name, email⟩, s2)
    | (Except.error _, s2) => (Envelope.error "Failed to insert user!", s2)

/-- Repository operation `checkUser({email,password})`: fetch-one matching
both fields exactly; a match yields OK with that row's id and name and the
given email, no match yields the single unauthorized message, a thrown
storage error is caught as `Failed to login user!`. -/
def checkUser (email password : String) (s : FStore) :
    Envelope UserInfo × FStore :=
  match runPrim (selectUserByEmailPassword email password) s with
  | (Except.ok (some u), s1) => (Envelope.ok ⟨u.id, u.name, email⟩, s1)
  | (Except.ok none, s1) => (Envelope.error "Wrong email or password.", s1)
  | (Except.error _, s1) => (Envelope.error "Failed to login user!", s1)

/-- Repository operation `updateUser({userID,name,password})`: rejects an
empty name or password upfront (JavaScript falsiness of the empty string)
before any storage call; otherwise updates unconditionally by id. -/
def updateUser (userID : ℕ) (name password : String) (s : FStore) :
    Envelope UpdatedUser × FStore :=
  if name = "" ∨ password = "" then
    (Envelope.error "New Name and Password can't be empty.", s)
  else
    match runPrim (updateUserById userID name password) s with
    | (Except.ok _, s1) =>
      (Envelope.ok ⟨"User name and password update successfully.", name⟩, s1)
    | (Except.error _, s1) => (Envelope.error "Failed to update user!", s1)

/-- Repository operation `deleteUser(email)`: delete by email, OK carries
the run info (`users: res`). -/
def deleteUser (email : String) (s : FStore) : Envelope RunInfo × FStore :=
  match runPrim (deleteUserByEmail email) s with
  | (Except.ok info, s1) => (Envelope.ok info, s1)
  | (Except.error _, s1) => (Envelope.error "Failed to delete user!", s1)

/-- Repository operation `getAllUsers()`. -/
def getAllUsers (s : FStore) : Envelope (List UserRow) × FStore :=
  match runPrim selectAllUsers s with
  | (Except.ok rows, s1) => (Envelope.ok rows, s1)
  | (Except.error _, s1) => (Envelope.error "Failed to get all users!", s1)

/-- Repository operation `getAllOrders()`. -/
def getAllOrders (s : FStore) : Envelope (List OrderRow) × FStore :=
  match runPrim selectAllOrders s with
  | (Except.ok rows, s1) => (Envelope.ok rows, s1)
  | (Except.error _, s1) => (Envelope.error "Failed to get all orders!", s1)

/-- Repository operation `getOrdersByUser({userID})`. -/
def getOrdersByUser (userID : ℕ) (s : FStore) :
    Envelope (List OrderRow) × FStore :=
  match runPrim (selectOrdersByUid userID) s with
  | (Except.ok rows, s1) => (Envelope.ok rows, s1)
  | (Except.error _, s1) => (Envelope.error "Failed to get orders by user!", s1)

/-- JavaScript `Math.round`: floor of x + 1/2 (half-way cases round toward
positive infinity), exact on the rational embedding. -/
def jsRound (q : ℚ) : ℤ :=
  ⌊q + 1 / 2⌋

/-- Repository operation `createOrder({userID,items})`: one `reduce` pass
derives `[itemNumber, totalPrice]` as
`([cnt, sum], itm) => [cnt + itm.quantity, sum + Math.round(itm.quantity * itm.price * 100)]`
starting from `[0, 0]`; the row is inserted with both flags 0 and the
stringified items, and OK carries the generated id. -/
def createOrder (userID : ℕ) (items : List LineItem) (s : FStore) :
    Envelope ℕ × FStore :=
  let acc := items.foldl
    (fun (p : ℚ × ℤ) itm =>
      (p.1 + itm.quantity, p.2 + jsRound (itm.quantity * itm.price * 100)))
    (0, 0)
  match runPrim (insertOrder userID acc.1 acc.2 items 0 0) s with
  | (Except.ok info, s1) => (Envelope.ok info.lastID, s1)
  | (Except.error _, s1) => (Envelope.error "Failed to insert orders!", s1)

/-- Repository operation `updateOrder({orderID,isPaid,isDelivered})`:
unconditional flag update by id, OK carries the run info. -/
def updateOrder (orderID : ℕ) (isPaid isDelivered : ℤ) (s : FStore) :
    Envelope RunInfo × FStore :=
  match runPrim (updateOrderById orderID isPaid isDelivered) s with
  | (Except.ok info, s1) => (Envelope.ok info, s1)
  | (Except.error _, s1) => (Envelope.error "update order error", s1)

/-- Repository operation `updateCart({uid,items})`: upsert keyed on the
unique uid, replacing `cart_items` wholesale on conflict. -/
def updateCart (uid : ℕ) (items : List Json) (s : FStore) :
    Envelope RunInfo × FStore :=
  match runPrim (upsertCart uid items) s with
  | (Except.ok info, s1) => (Envelope.ok info, s1)
  | (Except.error _, s1) => (Envelope.error "update cart error", s1)

/-- Repository operation `getCart({uid})`: fetch-one by uid; an absent row
yields OK with an empty item list, a present row yields OK with the parsed
blob. -/
def getCart (uid : ℕ) (s : FStore) : Envelope (List Json) × FStore :=
  match runPrim (selectCartByUid uid) s with
  | (Except.ok (some row), s1) => (Envelope.ok row.cart_items, s1)
  | (Except.ok none, s1) => (Envelope.ok [], s1)
  | (Except.error _, s1) => (Envelope.error "Failed to get cart items!", s1)

/-! ## Helper lemmas -/

/-- Helper: the single `reduce` pass of `createOrder` computes the sum of
the quantities and the sum of the per-line rounded prices. -/
lemma createOrder_foldl (items : List LineItem) (c : ℚ) (z : ℤ) :
    items.foldl
      (fun (p : ℚ × ℤ) itm =>
        (p.1 + itm.quantity, p.2 + jsRound (itm.quantity * itm.price * 100)))
      (c, z) =
    (c + (items.map fun i => i.quantity).sum,
     z + (items.map fun i => jsRound (i.quantity * i.price * 100)).sum) := by
  induction items generalizing c z with
  | nil => simp
  | cons a l ih => simp [ih, add_assoc]

/-- Helper: full characterization of a fault-free `createOrder` call — it
returns OK with the generated id and appends one order row with the
derived count, the derived per-line-rounded total, both flags 0, and the
submitted items. -/
lemma createOrder_spec (uid : ℕ) (items : List LineItem) (db : DB) :
    createOrder uid items ⟨db, []⟩ =
      (Envelope.ok db.nextOrderId,
        ⟨{ db with
            orders := db.orders ++
              [⟨db.nextOrderId, uid, (items.map fun i => i.quantity).sum, 0, 0,
                (items.map fun i => jsRound (i.quantity * i.price * 100)).sum, items⟩],
            nextOrderId := db.nextOrderId + 1,
            lastInsertId := db.nextOrderId }, []⟩) := by
  simp only [createOrder, createOrder_foldl, zero_add]
  simp [runPrim, popFault, insertOrder]

/-! ## C1 -/

/-- C1 (counterexample): on the item list
`[{price:1000,quantity:2},{price:250,quantity:1}]` the inserted row's
`total_price` is `round(2*1000*100) + round(1*250*100) = 225000`, not the
claimed `2250` (the code multiplies each line by 100 before rounding). -/
theorem createOrder_total_price_not_2250 :
    ((((createOrder 7 [⟨1000, 2⟩, ⟨250, 1⟩] ⟨DB.empty, []⟩).2).db.orders.map
        fun o => o.total_price) = [225000]) ∧ (225000 : ℤ) ≠ 2250 := by
  refine ⟨?_, by decide⟩
  rw [createOrder_spec]
  simp [DB.empty]
  norm_num [jsRound]

/-- C1 (amended): for the item list
`[{price:1000,quantity:2},{price:250,quantity:1}]`, `createOrder` derives
`itemCount = 3` and `totalPrice = 225000` and inserts the order row with
`is_paid = 0` and `is_delivered = 0`, returning OK with the generated id. -/
theorem createOrder_concrete_example (uid : ℕ) (db : DB) :
    (createOrder uid [⟨1000, 2⟩, ⟨250, 1⟩] ⟨db, []⟩).1 = Envelope.ok db.nextOrderId ∧
    ((createOrder uid [⟨1000, 2⟩, ⟨250, 1⟩] ⟨db, []⟩).2).db.orders =
      db.orders ++ [⟨db.nextOrderId, uid, 3, 0, 0, 225000, [⟨1000, 2⟩, ⟨250, 1⟩]⟩] := by
  rw [createOrder_spec]
  refine ⟨rfl, ?_⟩
  norm_num [jsRound]

/-! ## C2 -/

/-- C2: for every list of items, `createOrder` inserts a row whose
`item_numbers` is the sum of the quantities and whose `total_price` is the
sum over line items of `round(quantity * price * 100)` — rounding per line
item and then summing; the final conjunct shows on a concrete list that
this differs from rounding once over the whole sum. -/
theorem createOrder_per_line_rounding (uid : ℕ) (items : List LineItem) (db : DB) :
    (createOrder uid items ⟨db, []⟩).1 = Envelope.ok db.nextOrderId ∧
    ((createOrder uid items ⟨db, []⟩).2).db.orders =
      db.orders ++
        [⟨db.nextOrderId, uid, (items.map fun i => i.quantity).sum, 0, 0,
          (items.map fun i => jsRound (i.quantity * i.price * 100)).sum, items⟩] ∧
    (([⟨1/200, 1⟩, ⟨1/200, 1⟩] : List LineItem).map
        fun i => jsRound (i.quantity * i.price * 100)).sum ≠
      jsRound ((([⟨1/200, 1⟩, ⟨1/200, 1⟩] : List LineItem).map
        fun i => i.quantity * i.price * 100).sum) := by
  refine ⟨?_, ?_, ?_⟩
  · rw [createOrder_spec]
  · rw [createOrder_spec]
  · norm_num [jsRound]

/-! ## C5 -/

/-- C5: for every email already present in the users table, `createUser`
returns the conflict envelope (not OK) and leaves the whole store — in
particular the existing user row — unchanged: no insert or mutation. -/
theorem createUser_conflict (db : DB) (name email password : String) (u : UserRow)
    (hu : u ∈ db.users) (he : u.email = email) :
    createUser name email password ⟨db, []⟩ =
      (Envelope.error "The email is already used.", ⟨db, []⟩) := by
  have hne : db.users.find? (fun x => x.email == email) ≠ none := by
    intro h
    exact (List.find?_eq_none.mp h u hu) (by simp [he])
  obtain ⟨v, hv⟩ := Option.ne_none_iff_exists'.mp hne
  simp [createUser, checkEmailTaken, runPrim, popFault, selectUserByEmail, hv]

/-- C5 witness at a concrete store holding the user `Bob`. -/
theorem createUser_conflict_witness :
    ((⟨1, "Bob", "bob@mail.com", "secret"⟩ : UserRow) ∈
        (⟨[⟨1, "Bob", "bob@mail.com", "secret"⟩], 2, [], 1, [], 1, 1⟩ : DB).users ∧
      (⟨1, "Bob", "bob@mail.com", "secret"⟩ : UserRow).email = "bob@mail.com") ∧
    createUser "Eve" "bob@mail.com" "pw"
        ⟨⟨[⟨1, "Bob", "bob@mail.com", "secret"⟩], 2, [], 1, [], 1, 1⟩, []⟩ =
      (Envelope.error "The email is already used.",
        ⟨⟨[⟨1, "Bob", "bob@mail.com", "secret"⟩], 2, [], 1, [], 1, 1⟩, []⟩) :=
  ⟨⟨by simp, rfl⟩,
    createUser_conflict ⟨[⟨1, "Bob", "bob@mail.com", "secret"⟩], 2, [], 1, [], 1, 1⟩
      "Eve" "bob@mail.com" "pw" ⟨1, "Bob", "bob@mail.com", "secret"⟩ (by simp) rfl⟩

/-! ## C6 -/

/-- C6: for every user id, calling `updateUser` with an empty name or an
empty password returns the validation-error envelope without touching the
store: the returned store (users, orders, cart, every counter, and the
remaining fault schedule) is exactly the input store. -/
theorem updateUser_empty_validation (db : DB) (faults : List (Option String))
    (uid : ℕ) (name password : String) (h : name = "" ∨ password = "") :
    updateUser uid name password ⟨db, faults⟩ =
      (Envelope.error "New Name and Password can't be empty.", ⟨db, faults⟩) := by
  simp only [updateUser, if_pos h]

/-- C6 witness: empty name, nonempty password, on the empty store. -/
theorem updateUser_empty_validation_witness :
    ((("" : String) = "" ∨ ("pw" : String) = "") ∧
      updateUser 1 "" "pw" ⟨DB.empty, []⟩ =
        (Envelope.error "New Name and Password can't be empty.", ⟨DB.empty, []⟩)) :=
  ⟨Or.inl rfl, updateUser_empty_validation DB.empty [] 1 "" "pw" (Or.inl rfl)⟩

/-! ## C8 -/

/-- C8: for every user id with no cart row, `getCart` returns OK with the
empty item list, never an error. -/
theorem getCart_no_row_empty (db : DB) (u : ℕ) (h : ∀ c ∈ db.cart, c.uid ≠ u) :
    (getCart u ⟨db, []⟩).1 = Envelope.ok [] := by
  have hf : db.cart.find? (fun c => c.uid == u) = none := by
    rw [List.find?_eq_none]
    intro c hc
    simpa using h c hc
  simp [getCart, runPrim, popFault, selectCartByUid, hf]

/-- C8 witness: user 5 on the freshly initialised store. -/
theorem getCart_no_row_empty_witness :
    (∀ c ∈ DB.empty.cart, c.uid ≠ 5) ∧ (getCart 5 ⟨DB.empty, []⟩).1 = Envelope.ok [] :=
  ⟨by simp [DB.empty], getCart_no_row_empty DB.empty 5 (by simp [DB.empty])⟩

/-! ## C3 -/

/-- Predicate: a repository result has the uniform envelope shape —
OK with data, or error with a message. -/
def isEnvelope {α : Type} (r : Envelope α) : Prop :=
  (∃ d, r = Envelope.ok d) ∨ (∃ m, r = Envelope.error m)

/-- Helper: every `Envelope` value is OK-shaped or error-shaped. -/
lemma envelope_shape {α : Type} (r : Envelope α) : isEnvelope r := by
  cases r with
  | ok d => exact Or.inl ⟨d, rfl⟩
  | error m => exact Or.inr ⟨m, rfl⟩

/-- C3: every repository operation, on every store state (any database
contents, any injected fault schedule) and every input, returns the
uniform envelope — OK with data or error with a message. Thrown storage
exceptions live in the `Except` layer of the storage primitives, and each
operation's catch translates them into the error envelope, so no raw
exception reaches the caller. -/
theorem repo_ops_uniform_envelope (s : FStore) (name email password : String)
    (uid oid userID : ℕ) (isPaid isDelivered : ℤ)
    (items : List LineItem) (cartItems : List Json) :
    isEnvelope (checkEmailTaken email s).1 ∧
    isEnvelope (createUser name email password s).1 ∧
    isEnvelope (checkUser email password s).1 ∧
    isEnvelope (updateUser userID name password s).1 ∧
    isEnvelope (deleteUser email s).1 ∧
    isEnvelope (getAllUsers s).1 ∧
    isEnvelope (getAllOrders s).1 ∧
    isEnvelope (getOrdersByUser userID s).1 ∧
    isEnvelope (createOrder userID items s).1 ∧
    isEnvelope (updateOrder oid isPaid isDelivered s).1 ∧
    isEnvelope (updateCart uid cartItems s).1 ∧
    isEnvelope (getCart uid s).1 :=
  ⟨envelope_shape _, envelope_shape _, envelope_shape _, envelope_shape _,
    envelope_shape _, envelope_shape _, envelope_shape _, envelope_shape _,
    envelope_shape _, envelope_shape _, envelope_shape _, envelope_shape _⟩

/-! ## C4 -/

/-- Helper: replacing `cart_items` on every row matching `u` commutes with
looking the row up — the lookup finds the first matching row with the new
items. -/
lemma cartFind_map (l : List CartRow) (u : ℕ) (Y : List Json) :
    (l.map fun c => if c.uid == u then { c with cart_items := Y } else c).find?
        (fun c => c.uid == u) =
      (l.find? fun c => c.uid == u).map fun c => ⟨c.uid, Y⟩ := by
  induction l with
  | nil => simp
  | cons a l ih =>
    cases h : a.uid == u with
    | true =>
      have hm : (({ a with cart_items := Y } : CartRow).uid == u) = true := h
      rw [List.map_cons, List.find?_cons, List.find?_cons, if_pos h, hm]
      rfl
    | false =>
      rw [List.map_cons, List.find?_cons, List.find?_cons, if_neg (by simp [h]), h]
      exact ih

/-- Helper: a fault-free `updateCart` leaves a store whose cart lookup on
that uid finds exactly the new items. -/
lemma updateCart_find (db : DB) (u : ℕ) (X : List Json) :
    ∃ db1 : DB, (updateCart u X ⟨db, []⟩).2 = ⟨db1, []⟩ ∧
      db1.cart.find? (fun c => c.uid == u) = some ⟨u, X⟩ := by
  by_cases h : db.cart.any (fun c => c.uid == u) = true
  · have hstate : (updateCart u X ⟨db, []⟩).2 =
        ⟨{ db with cart := db.cart.map fun c =>
            if c.uid == u then { c with cart_items := X } else c }, []⟩ := by
      simp [updateCart, runPrim, popFault, upsertCart, h]
    refine ⟨_, hstate, ?_⟩
    show (db.cart.map fun c =>
        if c.uid == u then { c with cart_items := X } else c).find?
      (fun c => c.uid == u) = some ⟨u, X⟩
    obtain ⟨c, hc, hcu⟩ := List.any_eq_true.mp h
    have hsome : (db.cart.find? fun c => c.uid == u) ≠ none := by
      intro hn
      exact (List.find?_eq_none.mp hn c hc) hcu
    obtain ⟨v, hv⟩ := Option.ne_none_iff_exists'.mp hsome
    have hvu := List.find?_some hv
    have hveq : v.uid = u := by simpa using hvu
    rw [cartFind_map, hv]
    simp [hveq]
  · have hstate : (updateCart u X ⟨db, []⟩).2 =
        ⟨{ db with
            cart := db.cart ++ [⟨u, X⟩],
            nextCartRowId := db.nextCartRowId + 1,
            lastInsertId := db.nextCartRowId }, []⟩ := by
      simp [updateCart, runPrim, popFault, upsertCart, h]
    refine ⟨_, hstate, ?_⟩
    show (db.cart ++ [(⟨u, X⟩ : CartRow)]).find? (fun c => c.uid == u) = some ⟨u, X⟩
    have hnone : (db.cart.find? fun c => c.uid == u) = none := by
      rw [List.find?_eq_none]
      intro c hc hcu
      exact h (List.any_eq_true.mpr ⟨c, hc, hcu⟩)
    rw [List.find?_append, hnone]
    simp [List.find?]

/-- Helper: when the cart lookup finds a row `{uid := u, cart_items := X}`,
a fault-free `getCart` returns OK with `X`. -/
lemma getCart_of_find (db : DB) (u : ℕ) (X : List Json)
    (h : db.cart.find? (fun c => c.uid == u) = some ⟨u, X⟩) :
    (getCart u ⟨db, []⟩).1 = Envelope.ok X := by
  simp [getCart, runPrim, popFault, selectCartByUid, h]

/-- C4: cart updates are wholesale replacement — for every user id `u` and
item lists `X` and `Y`, `updateCart u X` then `getCart u` returns exactly
`X`, and `updateCart u X` then `updateCart u Y` then `getCart u` returns
exactly `Y` (never a merge of `X` and `Y`), starting from any store. -/
theorem updateCart_wholesale_replace (db : DB) (u : ℕ) (X Y : List Json) :
    (getCart u ((updateCart u X ⟨db, []⟩).2)).1 = Envelope.ok X ∧
    (getCart u ((updateCart u Y ((updateCart u X ⟨db, []⟩).2)).2)).1 =
      Envelope.ok Y := by
  obtain ⟨db1, h1, hf1⟩ := updateCart_find db u X
  have h2all := updateCart_find db1 u Y
  obtain ⟨db2, h2, hf2⟩ := h2all
  constructor
  · rw [h1]
    exact getCart_of_find db1 u X hf1
  · rw [h1, h2]
    exact getCart_of_find db2 u Y hf2

/-! ## C7 -/

/-- C7 (counterexample): on a store holding the user `Alice`, `checkUser`
with a wrong password returns the error message
`Wrong email or password.` — capital W, trailing period — which is not the
message `wrong email or password` the claim quotes. -/
theorem checkUser_message_capitalization :
    (checkUser "alice@mail.com" "bad"
        ⟨⟨[⟨1, "Alice", "alice@mail.com", "pw123"⟩], 2, [], 1, [], 1, 1⟩, []⟩).1 =
      Envelope.error "Wrong email or password." ∧
    "Wrong email or password." ≠ "wrong email or password" := by
  constructor
  · rfl
  · decide

/-- C7 (amended): `checkUser` matches on exact equality of both email and
password: when the lookup finds a row matching both it returns OK with
that row's id and name and the given email; when no row matches both it
returns the single message `Wrong email or password.` — the same result
whether the email or the password was the wrong one. -/
theorem checkUser_exact_match (db : DB) (email password : String) :
    (∀ u : UserRow,
        db.users.find? (fun x => x.email == email && x.password == password) =
          some u →
        (checkUser email password ⟨db, []⟩).1 = Envelope.ok ⟨u.id, u.name, email⟩) ∧
    ((∀ x ∈ db.users, ¬(x.email = email ∧ x.password = password)) →
      (checkUser email password ⟨db, []⟩).1 =
        Envelope.error "Wrong email or password.") := by
  constructor
  · intro u hu
    simp [checkUser, runPrim, popFault, selectUserByEmailPassword, hu]
  · intro hno
    have hf : db.users.find?
        (fun x => x.email == email && x.password == password) = none := by
      rw [List.find?_eq_none]
      intro x hx
      simpa using hno x hx
    simp [checkUser, runPrim, popFault, selectUserByEmailPassword, hf]

/-- C7 witness: both branches at a concrete store holding `Alice` — a
matching login returns her row, a wrong email yields the unauthorized
message. -/
theorem checkUser_exact_match_witness :
    ((⟨[⟨1, "Alice", "alice@mail.com", "pw123"⟩], 2, [], 1, [], 1, 1⟩ : DB).users.find?
        (fun x => x.email == "alice@mail.com" && x.password == "pw123") =
      some ⟨1, "Alice", "alice@mail.com", "pw123"⟩) ∧
    (checkUser "alice@mail.com" "pw123"
        ⟨⟨[⟨1, "Alice", "alice@mail.com", "pw123"⟩], 2, [], 1, [], 1, 1⟩, []⟩).1 =
      Envelope.ok ⟨1, "Alice", "alice@mail.com"⟩ ∧
    (∀ x ∈ (⟨[⟨1, "Alice", "alice@mail.com", "pw123"⟩], 2, [], 1, [], 1, 1⟩ : DB).users,
        ¬(x.email = "zoe@mail.com" ∧ x.password = "pw123")) ∧
    (checkUser "zoe@mail.com" "pw123"
        ⟨⟨[⟨1, "Alice", "alice@mail.com", "pw123"⟩], 2, [], 1, [], 1, 1⟩, []⟩).1 =
      Envelope.error "Wrong email or password." :=
  ⟨rfl,
    (checkUser_exact_match ⟨[⟨1, "Alice", "alice@mail.com", "pw123"⟩], 2, [], 1, [], 1, 1⟩
      "alice@mail.com" "pw123").1 ⟨1, "Alice", "alice@mail.com", "pw123"⟩ rfl,
    by decide,
    (checkUser_exact_match ⟨[⟨1, "Alice", "alice@mail.com", "pw123"⟩], 2, [], 1, [], 1, 1⟩
      "zoe@mail.com" "pw123").2 (by decide)⟩

/-! ## C9 -/

/-- C9 (counterexample): on a store holding one order with
`is_delivered = 1`, `updateOrder(id, isPaid=1, isDelivered=0)` rewrites
`is_delivered` to 0 — the flag is not left untouched, because the UPDATE
statement writes both flag columns. -/
theorem updateOrder_clobbers_is_delivered :
    ((((updateOrder 1 1 0
          ⟨⟨[], 1, [⟨1, 1, 3, 0, 1, 225000, []⟩], 2, [], 1, 1⟩, []⟩).2).db.orders.map
        fun o => o.is_delivered) = [0]) ∧
    (((⟨[], 1, [⟨1, 1, 3, 0, 1, 225000, []⟩], 2, [], 1, 1⟩ : DB).orders.map
        fun o => o.is_delivered) = [1]) ∧
    (0 : ℤ) ≠ 1 := by
  refine ⟨rfl, rfl, by decide⟩

/-- C9 (amended): `updateOrder(id, isPaid=1, isDelivered=0)` on an
existing order writes both flag columns of that row; when the order's
`is_delivered` is already 0 the call changes only `is_paid` — every other
field of the row, every other row, and every other table are unchanged —
and returns OK. -/
theorem updateOrder_paid_only (db : DB) (oid : ℕ) (r : OrderRow)
    (hnd : (db.orders.map fun o => o.id).Nodup) (hr : r ∈ db.orders)
    (hid : r.id = oid) (hdel : r.is_delivered = 0) :
    (∃ info, (updateOrder oid 1 0 ⟨db, []⟩).1 = Envelope.ok info) ∧
    ((updateOrder oid 1 0 ⟨db, []⟩).2).db =
      { db with
          orders := db.orders.map fun o =>
            if o.id = oid then { o with is_paid := 1 } else o } := by
  have hcond : ((db.orders.any fun o => o.id == oid) &&
      !(((1 : ℤ) == 0 || (1 : ℤ) == 1) && ((0 : ℤ) == 0 || (0 : ℤ) == 1))) = false := by
    simp
  have hmap : (db.orders.map fun o =>
      if o.id == oid then { o with is_paid := (1 : ℤ), is_delivered := (0 : ℤ) } else o) =
      db.orders.map fun o => if o.id = oid then { o with is_paid := (1 : ℤ) } else o := by
    apply List.map_congr_left
    intro o ho
    by_cases h : o.id = oid
    · have hor : o = r := List.inj_on_of_nodup_map hnd ho hr (h.trans hid.symm)
      have hdel2 : o.is_delivered = 0 := by rw [hor, hdel]
      simp [h, hdel2]
    · simp [h]
  have hrun : updateOrder oid 1 0 ⟨db, []⟩ =
      (Envelope.ok ⟨db.lastInsertId, (db.orders.filter fun o => o.id == oid).length⟩,
        ⟨{ db with
            orders := db.orders.map fun o =>
              if o.id == oid then { o with is_paid := 1, is_delivered := 0 } else o },
          []⟩) := by
    simp only [updateOrder, runPrim, popFault, updateOrderById, hcond,
      Bool.false_eq_true, if_false]
  rw [hrun, hmap]
  exact ⟨⟨_, rfl⟩, rfl⟩

/-- C9 witness: a store with one order whose flags are both 0. -/
theorem updateOrder_paid_only_witness :
    (((⟨[], 1, [⟨1, 1, 3, 0, 0, 225000, []⟩], 2, [], 1, 1⟩ : DB).orders.map
        fun o => o.id).Nodup ∧
      (⟨1, 1, 3, 0, 0, 225000, []⟩ : OrderRow) ∈
        (⟨[], 1, [⟨1, 1, 3, 0, 0, 225000, []⟩], 2, [], 1, 1⟩ : DB).orders ∧
      (⟨1, 1, 3, 0, 0, 225000, []⟩ : OrderRow).id = 1 ∧
      (⟨1, 1, 3, 0, 0, 225000, []⟩ : OrderRow).is_delivered = 0) ∧
    ((∃ info, (updateOrder 1 1 0
        ⟨⟨[], 1, [⟨1, 1, 3, 0, 0, 225000, []⟩], 2, [], 1, 1⟩, []⟩).1 = Envelope.ok info) ∧
      ((updateOrder 1 1 0
          ⟨⟨[], 1, [⟨1, 1, 3, 0, 0, 225000, []⟩], 2, [], 1, 1⟩, []⟩).2).db =
        { (⟨[], 1, [⟨1, 1, 3, 0, 0, 225000, []⟩], 2, [], 1, 1⟩ : DB) with
            orders := (⟨[], 1, [⟨1, 1, 3, 0, 0, 225000, []⟩], 2, [], 1, 1⟩ : DB).orders.map
              fun o => if o.id = 1 then { o with is_paid := 1 } else o }) :=
  ⟨⟨by decide, by simp, rfl, rfl⟩,
    updateOrder_paid_only ⟨[], 1, [⟨1, 1, 3, 0, 0, 225000, []⟩], 2, [], 1, 1⟩ 1
      ⟨1, 1, 3, 0, 0, 225000, []⟩ (by decide) (by simp) rfl rfl⟩

/-! ## C10 -/

/-- Helper: `checkEmailTaken` never mutates the database — its only
storage call is a SELECT. -/
lemma checkEmailTaken_db_unchanged (email : String) (s : FStore) :
    ((checkEmailTaken email s).2).db = s.db := by
  rcases s with ⟨db, faults⟩
  rcases faults with _ | ⟨f, rest⟩
  · cases hf : db.users.find? (fun u => u.email == email) <;>
      simp [checkEmailTaken, runPrim, popFault, selectUserByEmail, hf]
  · rcases f with _ | m
    · cases hf : db.users.find? (fun u => u.email == email) <;>
        simp [checkEmailTaken, runPrim, popFault, selectUserByEmail, hf]
    · simp [checkEmailTaken, runPrim, popFault, selectUserByEmail]

/-- C10: whenever the email pre-check inside `createUser` returns an error
envelope — duplicate email or a storage failure of the SELECT —
`createUser` returns that envelope unchanged (same status tag, same
message) with the pre-check's resulting store, and performs no insert: the
database is exactly the input database. -/
theorem createUser_precheck_propagates (db : DB) (faults : List (Option String))
    (name email password : String) (m : String) (s1 : FStore)
    (h : checkEmailTaken email ⟨db, faults⟩ = (Envelope.error m, s1)) :
    createUser name email password ⟨db, faults⟩ = (Envelope.error m, s1) ∧
    s1.db = db := by
  constructor
  · unfold createUser
    rw [h]
  · have hdb := checkEmailTaken_db_unchanged email ⟨db, faults⟩
    rw [h] at hdb
    exact hdb

/-- C10 witness: an injected storage failure of the SELECT — `createUser`
surfaces the exception's own message in the error envelope and does not
insert. -/
theorem createUser_precheck_propagates_witness :
    checkEmailTaken "a@b.com" ⟨DB.empty, [some "disk error"]⟩ =
      (Envelope.error "disk error", ⟨DB.empty, []⟩) ∧
    (createUser "N" "a@b.com" "p" ⟨DB.empty, [some "disk error"]⟩ =
        (Envelope.error "disk error", ⟨DB.empty, []⟩) ∧
      (⟨DB.empty, []⟩ : FStore).db = DB.empty) :=
  ⟨rfl, createUser_precheck_propagates DB.empty [some "disk error"] "N" "a@b.com" "p"
      "disk error" ⟨DB.empty, []⟩ rfl⟩
